import Mathlib

/-!
A verification development for the `gdb-init-rust-stl.py` debugger
extension script.  The script's logic is embedded shallowly:

* Byte buffers are modelled as `List Char` (all markers and the tag
  pattern are ASCII, and the script decodes matched bytes as UTF-8).
* Subprocess execution is modelled by `ExecOutcome`: either the
  executable is missing (`FileNotFoundError`) or it ran, producing an
  exit code and a stdout string.
* Python exceptions that the script can raise or fail to catch are
  modelled by `PyErr`; fallible steps return `Except PyErr _`.
* Console output goes through `con_print`, which drops messages when
  the quiet flag is set; the model collects the messages handed to that
  sink and applies the same gate.
* The `invoke` model additionally records the argv of each spawned
  subprocess and the number of whole-file reads, so that frame effects
  (nothing spawned, no extra read) are provable.
-/

deriving instance DecidableEq for Except

/-- Result of `subprocess.run`: the executable may be absent
(`FileNotFoundError`), or it ran with a return code and stdout. -/
inductive ExecOutcome where
  | notFound : ExecOutcome
  | ran (returncode : Int) (stdout : String) : ExecOutcome
deriving Repr, DecidableEq

/-- Python exceptions relevant to the script: the uncaught
`AttributeError` from `self.con_write`, the `TypeError` from
`open(None)`, the `IOError`/`OSError` from reading an unreadable file,
and the `IndexError` from `split()[0]` on empty output. -/
inductive PyErr where
  | attributeError : PyErr
  | typeError : PyErr
  | ioError : PyErr
  | indexError : PyErr
deriving Repr, DecidableEq

/-- Whitespace splitter over a character list: `acc` holds the current
token reversed.  Produces the maximal whitespace-free runs, in order,
empty runs discarded. -/
def splitWsAux : List Char → List Char → List (List Char)
  | [], acc => if acc = [] then [] else [acc.reverse]
  | c :: rest, acc =>
      if c.isWhitespace then
        if acc = [] then splitWsAux rest [] else acc.reverse :: splitWsAux rest []
      else splitWsAux rest (c :: acc)

/-- Python `str.split()` with no argument: split on whitespace runs,
discarding empty pieces. -/
def pyTokens (s : String) : List String :=
  (splitWsAux s.data []).map String.mk

/-- Python `str.strip()` on a character list: drop whitespace from both
ends. -/
def pyStrip (l : List Char) : List Char :=
  (((l.dropWhile Char.isWhitespace).reverse).dropWhile Char.isWhitespace).reverse

/-- Python `str.strip()` on a string. -/
def pyStripStr (s : String) : String := String.mk (pyStrip s.data)

/-- `posixpath.join` folded over the remaining components: an absolute
component resets the path, otherwise a separator is inserted unless one
is already there. -/
def osPathJoin : String → List String → String
  | a, [] => a
  | a, b :: rest =>
      osPathJoin
        (if b.data.head? = some '/' then b
         else if a = "" ∨ a.data.getLast? = some '/' then a ++ b
         else a ++ "/" ++ b)
        rest

/-- Scan for an occurrence of `needle` anywhere in the buffer, the way
`re.search` treats a literal pattern (all three markers are literals
with no metacharacters). -/
def searchSub (needle : List Char) : List Char → Bool
  | [] => needle.isEmpty
  | c :: rest => needle.isPrefixOf (c :: rest) || searchSub needle rest

/-- The three marker byte strings of `is_rust_binary`
(src/gdb-init-rust-stl.py lines 78). -/
def rustStrings : List (List Char) :=
  ["rust_begin_unwind".toList, "rust_eh_personality".toList, "/rustc/".toList]

/-- `InitRustStlCommand.is_rust_binary` (lines 74-84), applied to the
bytes read from the binary: true when any marker occurs in the data. -/
def is_rust_binary (file_data : List Char) : Bool :=
  rustStrings.any (fun s => searchSub s file_data)

/-- The literal lead-in of the tag pattern `/rustc/[^/]+/`. -/
def rustcMarker : List Char := "/rustc/".toList

/-- Match of the pattern `/rustc/[^/]+/` anchored at the head of `l`:
the literal lead-in, then a maximal nonempty run of characters other
than the separator, then the separator.  Returns the matched text. -/
def matchTagHere (l : List Char) : Option (List Char) :=
  if rustcMarker.isPrefixOf l then
    let rest := l.drop rustcMarker.length
    let run := rest.takeWhile (fun c => c ≠ '/')
    if run ≠ [] ∧ (rest.drop run.length).head? = some '/' then
      some (rustcMarker ++ run ++ ['/'])
    else none
  else none

/-- Leftmost match of `/rustc/[^/]+/` in the buffer, as
`re.findall(...)[0]` selects it. -/
def findFirstRustcTag : List Char → Option (List Char)
  | [] => none
  | c :: rest =>
      match matchTagHere (c :: rest) with
      | some m => some m
      | none => findFirstRustcTag rest

/-- `InitRustStlCommand.get_rustlib_path` (lines 112-121) on the bytes
read from the binary: first match of the pattern, decoded, stripped,
with the final character removed (`[:-1]`). -/
def get_rustlib_path (data : List Char) : Option (List Char) :=
  (findFirstRustcTag data).map (fun m => (pyStrip m).dropLast)

/-- Diagnostic of `get_rustup_home` / `get_active_rust_toolchain` when
rustup is missing (lines 95 and 108; quote characters of the original
text omitted). -/
def rustupMissingMsg : String :=
  "Error: rustup command not found. Make sure Rust is installed and rustup is in your PATH"

/-- Diagnostic of `get_rustup_home` on a nonzero exit code (line 92). -/
def rustupHomeFailedMsg (rc : Int) : String :=
  "Error: rustup show home failed with exit code " ++ toString rc

/-- Diagnostic of `get_active_rust_toolchain` on a nonzero exit code
(line 105). -/
def rustupActiveFailedMsg (rc : Int) : String :=
  "Error: rustup show active-toolchain failed with exit code " ++ toString rc

/-- Diagnostic printed when the loaded binary is not detected as a Rust
binary (line 133). -/
def notRustMsg : String :=
  "Error: Current binary was not detected to be a Rust binary. If thats a false positive rerun with the -f flag"

/-- Diagnostic printed when no tag is found in the binary (line 147). -/
def noTagMsg : String := "Error: rustlib path not found in the binary"

/-- Diagnostic of `InitRustPrettyPrinter.get_rustc_sysroot` when rustc
is missing (line 31). -/
def rustcMissingMsg : String :=
  "Error: rustc command not found. Make sure Rust is installed and rustc is in your PATH"

/-- Diagnostic of `get_rustc_sysroot` on a nonzero exit code (line 28). -/
def sysrootFailedMsg (rc : Int) : String :=
  "Error: rustc --print=sysroot failed with exit code " ++ toString rc

/-- `InitRustStlCommand.get_rustup_home` (lines 86-97).  Returns the
value (if any) together with the messages handed to the `con_print`
sink.  On exit code 0 it takes `stdout.split()[0].strip()`; the
`.strip()` is a no-op on a whitespace-delimited token, and `[0]` raises
an uncaught `IndexError` when stdout has no tokens (only
`FileNotFoundError` is caught). -/
def get_rustup_home (r : ExecOutcome) : Except PyErr (Option String × List String) :=
  match r with
  | .notFound => .ok (none, [rustupMissingMsg])
  | .ran rc out =>
      if rc = 0 then
        match pyTokens out with
        | [] => .error PyErr.indexError
        | t :: _ => .ok (some t, [])
      else .ok (none, [rustupHomeFailedMsg rc])

/-- `InitRustStlCommand.get_active_rust_toolchain` (lines 99-110), same
shape as `get_rustup_home`. -/
def get_active_rust_toolchain (r : ExecOutcome) : Except PyErr (Option String × List String) :=
  match r with
  | .notFound => .ok (none, [rustupMissingMsg])
  | .ran rc out =>
      if rc = 0 then
        match pyTokens out with
        | [] => .error PyErr.indexError
        | t :: _ => .ok (some t, [])
      else .ok (none, [rustupActiveFailedMsg rc])

/-- `InitRustPrettyPrinter.get_rustc_sysroot` (lines 22-33): on exit
code 0 it returns the whole stdout stripped (`result.stdout.strip()`),
not a token; its diagnostics go to plain `print` (no quiet gate
exists on that class), returned here as the message list. -/
def get_rustc_sysroot (r : ExecOutcome) : Option String × List String :=
  match r with
  | .notFound => (none, [rustcMissingMsg])
  | .ran rc out =>
      if rc = 0 then (some (pyStripStr out), [])
      else (none, [sysrootFailedMsg rc])

/-- Outcome of `parse_known_args` (lines 64-68) for the two
`store_true` flags: which flags were seen, and the unrecognized
leftover tokens. -/
structure ParsedArgs where
  force : Bool
  quiet : Bool
  unknown : List String
deriving Repr, DecidableEq

/-- `InitRustStlCommand.parse_args` (lines 64-68): recognize `-f` or
`--force` and `-q` or `--quiet`, collect everything else as unknown. -/
def parseArgs (args : List String) : ParsedArgs :=
  { force := args.contains "-f" || args.contains "--force"
    quiet := args.contains "-q" || args.contains "--quiet"
    unknown := args.filter (fun a => a ∉ ["-f", "--force", "-q", "--quiet"]) }

/-- `InitRustStlCommand.con_print` (lines 70-72), applied to a batch of
messages: they reach the console only when the quiet flag is unset. -/
def con_print (quiet : Bool) (msgs : List String) : List String :=
  if quiet then [] else msgs

/-- Argv of the first rustup subprocess (line 88). -/
def rustupHomeArgv : List String := ["rustup", "show", "home"]

/-- Argv of the second rustup subprocess (line 101). -/
def rustupActiveArgv : List String := ["rustup", "show", "active-toolchain"]

/-- Observable outcome of one `invoke` before the quiet gate is
applied: messages handed to `con_print`, argv of each spawned
subprocess, number of whole-file reads, and the issued
`set substitute-path` directives as (from, to) pairs. -/
structure RawOutcome where
  msgs : List String
  spawned : List (List String)
  reads : Nat
  directives : List (String × String)
deriving Repr, DecidableEq

/-- Observable outcome of one `invoke` after the quiet gate: what was
actually printed, plus the spawned subprocesses, file reads and
directives. -/
structure InvokeOut where
  printed : List String
  spawned : List (List String)
  reads : Nat
  directives : List (String × String)
deriving Repr, DecidableEq

/-- Lines 136-147 of `invoke`: query rustup twice (both attempted, in
order, regardless of each other), then, if the binary path and both
answers are present, join the toolchain source path and extract the tag
from the binary (a second read of the file), issuing one substitution
directive when a tag is found.  `reads0` counts the file reads already
performed by the type check. -/
def invokeAfterCheck (binary_path : Option String) (fileData : Option (List Char))
    (homeRes tcRes : ExecOutcome) (reads0 : Nat) : Except PyErr RawOutcome :=
  match get_rustup_home homeRes with
  | .error e => .error e
  | .ok (rustup_home, hm) =>
      match get_active_rust_toolchain tcRes with
      | .error e => .error e
      | .ok (active_toolchain, tm) =>
          match binary_path, rustup_home, active_toolchain with
          | some _, some h, some t =>
              match fileData with
              | none => .error PyErr.ioError
              | some data =>
                  let toolchain_path :=
                    osPathJoin h ["toolchains", t, "lib", "rustlib", "src", "rust"]
                  match get_rustlib_path data with
                  | some rp =>
                      .ok ⟨hm ++ tm, [rustupHomeArgv, rustupActiveArgv], reads0 + 1,
                           [(String.mk rp, toolchain_path)]⟩
                  | none =>
                      .ok ⟨hm ++ tm ++ [noTagMsg], [rustupHomeArgv, rustupActiveArgv],
                           reads0 + 1, []⟩
          | _, _, _ => .ok ⟨hm ++ tm, [rustupHomeArgv, rustupActiveArgv], reads0, []⟩

/-- Lines 131-147 of `invoke`, after flag parsing: the type-check gate
(line 132, short-circuit: with force set the file is not read), then
the rustup queries and the directive.  `binary_path = none` models
`gdb.current_progspace().filename` being `None`, on which `open` raises
`TypeError`; `fileData = none` models an unreadable file, on which
`open` raises an uncaught I/O error. -/
def invokeOutcome (force : Bool) (binary_path : Option String)
    (fileData : Option (List Char)) (homeRes tcRes : ExecOutcome) :
    Except PyErr RawOutcome :=
  if force then invokeAfterCheck binary_path fileData homeRes tcRes 0
  else
    match binary_path with
    | none => .error PyErr.typeError
    | some _ =>
        match fileData with
        | none => .error PyErr.ioError
        | some data =>
            if is_rust_binary data then invokeAfterCheck binary_path fileData homeRes tcRes 1
            else .ok ⟨[notRustMsg], [], 1, []⟩

/-- `InitRustStlCommand.invoke` (lines 123-147) on parsed flags: with
unknown tokens present, line 129 calls `self.con_write`, a method that
does not exist anywhere in the class, so the invocation dies with an
uncaught `AttributeError` before anything else happens.  Otherwise the
quiet gate of `con_print` is applied to every collected message. -/
def invokeCore (pa : ParsedArgs) (binary_path : Option String)
    (fileData : Option (List Char)) (homeRes tcRes : ExecOutcome) :
    Except PyErr InvokeOut :=
  if pa.unknown ≠ [] then .error PyErr.attributeError
  else
    (invokeOutcome pa.force binary_path fileData homeRes tcRes).map
      (fun o => ⟨con_print pa.quiet o.msgs, o.spawned, o.reads, o.directives⟩)

/-- `InitRustStlCommand.invoke` (lines 123-147): parse the argument
tokens, then run the invocation body. -/
def invoke (args : List String) (binary_path : Option String)
    (fileData : Option (List Char)) (homeRes tcRes : ExecOutcome) :
    Except PyErr InvokeOut :=
  invokeCore (parseArgs args) binary_path fileData homeRes tcRes

/-! Helper lemmas shared by the claim theorems. -/

/-- `searchSub` finds exactly the substring occurrences. -/
lemma searchSub_iff (needle : List Char) :
    ∀ data, searchSub needle data = true ↔ needle <:+: data := by
  intro data
  induction data with
  | nil => simp [searchSub, List.isEmpty_iff]
  | cons c rest ih => simp [searchSub, List.infix_cons_iff, ih]

/-- `dropWhile` is the identity when the head fails the predicate. -/
lemma dropWhile_head_neg {α : Type} {p : α → Bool} {l : List α} {c : α}
    (h : l.head? = some c) (hc : p c = false) : l.dropWhile p = l := by
  cases l with
  | nil => simp at h
  | cons a t =>
      simp only [List.head?_cons, Option.some.injEq] at h
      subst h
      simp [List.dropWhile_cons, hc]

/-- Stripping is the identity on a list delimited by separators. -/
lemma pyStrip_eq_self {l : List Char} (h1 : l.head? = some '/')
    (h2 : l.getLast? = some '/') : pyStrip l = l := by
  unfold pyStrip
  rw [dropWhile_head_neg h1 (by decide)]
  rw [dropWhile_head_neg (p := Char.isWhitespace) (by rw [List.head?_reverse]; exact h2)
    (by decide)]
  exact List.reverse_reverse l

/-- Every anchored match has the shape lead-in, nonempty run, separator. -/
lemma matchTagHere_shape {l m : List Char} (h : matchTagHere l = some m) :
    ∃ run, run ≠ [] ∧ m = rustcMarker ++ run ++ ['/'] := by
  unfold matchTagHere at h
  split at h
  · simp only [] at h
    split at h
    · next hcond =>
        simp only [Option.some.injEq] at h
        exact ⟨_, hcond.1, h.symm⟩
    · cases h
  · cases h

/-- An anchored match starts and ends with the separator. -/
lemma matchTagHere_head_last {l m : List Char} (h : matchTagHere l = some m) :
    m.head? = some '/' ∧ m.getLast? = some '/' := by
  obtain ⟨run, hne, rfl⟩ := matchTagHere_shape h
  have hmk : rustcMarker = '/' :: "rustc/".toList := by decide
  constructor
  · rw [hmk]; simp
  · simp

/-- Stripping does not change a matched tag path. -/
lemma pyStrip_matchTag {l m : List Char} (h : matchTagHere l = some m) :
    pyStrip m = m :=
  pyStrip_eq_self (matchTagHere_head_last h).1 (matchTagHere_head_last h).2

/-- If the pattern matches at offset `i` and nowhere earlier, the scan
returns that match. -/
lemma findFirstRustcTag_of_first :
    ∀ (data : List Char) (i : Nat) (m : List Char),
      matchTagHere (data.drop i) = some m →
      (∀ j, j < i → matchTagHere (data.drop j) = none) →
      findFirstRustcTag data = some m := by
  intro data
  induction data with
  | nil =>
      intro i m hm _
      rw [List.drop_nil] at hm
      have hn : matchTagHere ([] : List Char) = none := by decide
      rw [hn] at hm
      cases hm
  | cons c rest ih =>
      intro i m hm hnone
      cases i with
      | zero =>
          rw [List.drop_zero] at hm
          unfold findFirstRustcTag
          rw [hm]
      | succ n =>
          have h0 : matchTagHere (c :: rest) = none := by
            have := hnone 0 (Nat.succ_pos n)
            simpa using this
          unfold findFirstRustcTag
          rw [h0]
          exact ih n m (by simpa using hm)
            (fun j hj => by simpa using hnone (j + 1) (Nat.succ_lt_succ hj))

/-- The tail of `invoke` issues exactly the one substitution directive
when both rustup queries answer and a tag is present. -/
lemma invokeAfterCheck_ok (p : String) (data : List Char) (hr tr : ExecOutcome)
    (home tc : String) (hm tm : List String) (r0 : Nat) (rp : List Char)
    (hhome : get_rustup_home hr = .ok (some home, hm))
    (htc : get_active_rust_toolchain tr = .ok (some tc, tm))
    (htag : get_rustlib_path data = some rp) :
    invokeAfterCheck (some p) (some data) hr tr r0 =
      .ok ⟨hm ++ tm, [rustupHomeArgv, rustupActiveArgv], r0 + 1,
           [(String.mk rp, osPathJoin home ["toolchains", tc, "lib", "rustlib", "src", "rust"])]⟩ := by
  unfold invokeAfterCheck
  simp [hhome, htc, htag]

/-- C1: whenever the invocation passes (or is forced past) the type
check, both rustup queries return values, and the binary contains a tag
match, exactly one path-substitution directive is issued, aliasing the
extracted remote tag path to the join of the install root with
`toolchains/<id>/lib/rustlib/src/rust`. -/
theorem invoke_issues_directive
    (args : List String) (force quiet : Bool) (p : String) (data : List Char)
    (home tc : String) (hm tm : List String) (hr tr : ExecOutcome) (rp : List Char)
    (hargs : parseArgs args = ⟨force, quiet, []⟩)
    (hcheck : force = true ∨ is_rust_binary data = true)
    (hhome : get_rustup_home hr = .ok (some home, hm))
    (htc : get_active_rust_toolchain tr = .ok (some tc, tm))
    (htag : get_rustlib_path data = some rp) :
    ∃ out, invoke args (some p) (some data) hr tr = .ok out ∧
      out.directives =
        [(String.mk rp, osPathJoin home ["toolchains", tc, "lib", "rustlib", "src", "rust"])] := by
  have hac0 := invokeAfterCheck_ok p data hr tr home tc hm tm 0 rp hhome htc htag
  have hac1 := invokeAfterCheck_ok p data hr tr home tc hm tm 1 rp hhome htc htag
  unfold invoke
  rw [hargs]
  unfold invokeCore
  rcases hcheck with rfl | hrb
  · simp [invokeOutcome, hac0]
    exact ⟨_, rfl, rfl⟩
  · simp only [invokeOutcome]
    cases force
    · simp [hrb, hac1]
      exact ⟨_, rfl, rfl⟩
    · simp [hac0]
      exact ⟨_, rfl, rfl⟩

/-- C1 witness: the end-to-end example of the spec, with install root
`/opt/rust`, toolchain `stable-x86_64` and embedded tag `1.70.0`. -/
theorem invoke_issues_directive_witness :
    parseArgs [] = ⟨false, false, []⟩ ∧
    ∃ out, invoke [] (some "b") (some "/rustc/1.70.0/x".toList)
        (.ran 0 "/opt/rust\n") (.ran 0 "stable-x86_64\n") = .ok out ∧
      out.directives =
        [("/rustc/1.70.0", "/opt/rust/toolchains/stable-x86_64/lib/rustlib/src/rust")] := by
  have h := invoke_issues_directive [] false false "b" "/rustc/1.70.0/x".toList
    "/opt/rust" "stable-x86_64" [] [] (.ran 0 "/opt/rust\n") (.ran 0 "stable-x86_64\n")
    "/rustc/1.70.0".toList (by decide) (Or.inr (by decide)) (by decide) (by decide) (by decide)
  obtain ⟨out, h1, h2⟩ := h
  refine ⟨by decide, out, h1, ?_⟩
  rw [h2]
  decide

/-- C2 counterexample: on a buffer containing `/rustc/1.70.0/`, tag
extraction keeps the fixed `/rustc/` lead-in; it returns
`/rustc/1.70.0`, not `1.70.0` as the claim states. -/
theorem get_rustlib_path_retains_marker :
    get_rustlib_path "ab/rustc/1.70.0/xx".toList = some "/rustc/1.70.0".toList ∧
    some "/rustc/1.70.0".toList ≠ some "1.70.0".toList := by decide

/-- C2 (amended): for every buffer with a leftmost match of the pattern
at offset `i`, extraction returns that match with only the trailing
separator stripped — the fixed `/rustc/` lead-in is retained. -/
theorem get_rustlib_path_first_match (data : List Char) (i : Nat) (m : List Char)
    (hm : matchTagHere (data.drop i) = some m)
    (hfirst : ∀ j, j < i → matchTagHere (data.drop j) = none) :
    get_rustlib_path data = some m.dropLast := by
  have h1 := findFirstRustcTag_of_first data i m hm hfirst
  unfold get_rustlib_path
  rw [h1]
  simp [pyStrip_matchTag hm]

/-- C2 witness: the leftmost match `/rustc/1.70.0/` at offset 2 yields
`/rustc/1.70.0`. -/
theorem get_rustlib_path_first_match_witness :
    matchTagHere ("ab/rustc/1.70.0/xx".toList.drop 2) = some "/rustc/1.70.0/".toList ∧
    get_rustlib_path "ab/rustc/1.70.0/xx".toList = some ("/rustc/1.70.0/".toList).dropLast := by
  refine ⟨by decide, get_rustlib_path_first_match _ 2 _ (by decide) ?_⟩
  intro j hj
  interval_cases j <;> decide

/-- C3: the claim says unrecognized tokens are reported as a warning
and the invocation proceeds; in the code, line 129 calls the
nonexistent method `con_write`, so any unrecognized token kills the
invocation with an uncaught `AttributeError` before anything else
happens.  Here everything else is well-formed (Rust binary, healthy
rustup), yet the invocation dies. -/
theorem invoke_unknown_args_fatal :
    invoke ["-x"] (some "b") (some "/rustc/1.70.0/x".toList)
      (.ran 0 "/opt/rust\n") (.ran 0 "stable-x86_64\n") = .error PyErr.attributeError := by
  decide

/-- C4: the type check returns true exactly when one of the three
marker byte sequences occurs as a substring of the buffer. -/
theorem is_rust_binary_iff (data : List Char) :
    is_rust_binary data = true ↔
      (∃ s t, s ++ "rust_begin_unwind".toList ++ t = data) ∨
      (∃ s t, s ++ "rust_eh_personality".toList ++ t = data) ∨
      (∃ s t, s ++ "/rustc/".toList ++ t = data) := by
  have h1 := searchSub_iff "rust_begin_unwind".toList data
  have h2 := searchSub_iff "rust_eh_personality".toList data
  have h3 := searchSub_iff "/rustc/".toList data
  simp only [is_rust_binary, rustStrings, List.any_cons, List.any_nil,
    Bool.or_eq_true, Bool.false_eq_true, or_false]
  rw [h1, h2, h3]
  exact Iff.rfl

/-- C5: with force unset and a binary failing the type check, the
invocation prints the guidance message (suppressed by quiet) and stops:
no subprocess is spawned, only the one type-check file read happens (no
tag extraction), and no directive is issued. -/
theorem invoke_not_rust_aborts
    (args : List String) (quiet : Bool) (p : String) (data : List Char)
    (hr tr : ExecOutcome)
    (hargs : parseArgs args = ⟨false, quiet, []⟩)
    (hnr : is_rust_binary data = false) :
    invoke args (some p) (some data) hr tr =
      .ok ⟨con_print quiet [notRustMsg], [], 1, []⟩ := by
  unfold invoke
  rw [hargs]
  unfold invokeCore invokeOutcome
  simp [hnr, Except.map]

/-- C5 witness: a non-Rust buffer under `-q`. -/
theorem invoke_not_rust_aborts_witness :
    parseArgs ["-q"] = ⟨false, true, []⟩ ∧
    is_rust_binary "hello".toList = false ∧
    invoke ["-q"] (some "b") (some "hello".toList) .notFound .notFound =
      .ok ⟨con_print true [notRustMsg], [], 1, []⟩ :=
  ⟨by decide, by decide,
    invoke_not_rust_aborts ["-q"] true "b" "hello".toList .notFound .notFound
      (by decide) (by decide)⟩

/-- C6 counterexample: with exit code 0 and stdout `"a b\n"`, the
sysroot query returns the whole stripped stdout `"a b"`, not the first
whitespace-delimited token `"a"` as the claim states for all three
subprocess invocations. -/
theorem get_rustc_sysroot_not_first_token :
    get_rustc_sysroot (.ran 0 "a b\n") = (some "a b", []) ∧
    pyTokens "a b\n" = ["a", "b"] ∧ ("a b" : String) ≠ "a" := by decide

/-- C6 (amended): on exit code 0 the two rustup queries return the
first whitespace-delimited token of stdout; the sysroot query instead
returns the entire stdout stripped of surrounding whitespace. -/
theorem locators_success_values (out : String) (t : String) (ts : List String)
    (h : pyTokens out = t :: ts) :
    get_rustup_home (.ran 0 out) = .ok (some t, []) ∧
    get_active_rust_toolchain (.ran 0 out) = .ok (some t, []) ∧
    get_rustc_sysroot (.ran 0 out) = (some (pyStripStr out), []) := by
  refine ⟨?_, ?_, ?_⟩ <;>
    simp [get_rustup_home, get_active_rust_toolchain, get_rustc_sysroot, h]

/-- C6 witness: the spec example, stdout `"/home/user/.rustup\n"`. -/
theorem locators_success_values_witness :
    pyTokens "/home/user/.rustup\n" = ["/home/user/.rustup"] ∧
    get_rustup_home (.ran 0 "/home/user/.rustup\n") = .ok (some "/home/user/.rustup", []) ∧
    get_active_rust_toolchain (.ran 0 "/home/user/.rustup\n")
      = .ok (some "/home/user/.rustup", []) ∧
    get_rustc_sysroot (.ran 0 "/home/user/.rustup\n")
      = (some (pyStripStr "/home/user/.rustup\n"), []) := by
  have h := locators_success_values "/home/user/.rustup\n" "/home/user/.rustup" [] (by decide)
  exact ⟨by decide, h.1, h.2.1, h.2.2⟩

/-- C7: on a nonzero exit code or a missing executable, each rustup
locator returns nothing, hands exactly one diagnostic to the
`con_print` sink, and does not raise. -/
theorem locators_failure_diag (r : ExecOutcome)
    (h : r = .notFound ∨ ∃ rc out, r = .ran rc out ∧ rc ≠ 0) :
    (∃ m, get_rustup_home r = .ok (none, [m])) ∧
    (∃ m, get_active_rust_toolchain r = .ok (none, [m])) := by
  rcases h with rfl | ⟨rc, out, rfl, hrc⟩
  · exact ⟨⟨_, rfl⟩, ⟨_, rfl⟩⟩
  · constructor
    · exact ⟨rustupHomeFailedMsg rc, by simp [get_rustup_home, hrc]⟩
    · exact ⟨rustupActiveFailedMsg rc, by simp [get_active_rust_toolchain, hrc]⟩

/-- C7 witness: exit code 1. -/
theorem locators_failure_diag_witness :
    ((.ran 1 "" : ExecOutcome) = .notFound ∨
      ∃ rc out, (.ran 1 "" : ExecOutcome) = .ran rc out ∧ rc ≠ 0) ∧
    (∃ m, get_rustup_home (.ran 1 "") = .ok (none, [m])) ∧
    (∃ m, get_active_rust_toolchain (.ran 1 "") = .ok (none, [m])) := by
  have h := locators_failure_diag (.ran 1 "") (Or.inr ⟨1, "", rfl, by decide⟩)
  exact ⟨Or.inr ⟨1, "", rfl, by decide⟩, h.1, h.2⟩

/-- C8: with quiet set (and no unknown tokens) nothing is printed on
any path, and the directives issued are exactly those of the same
invocation without quiet. -/
theorem invoke_quiet_suppresses
    (aq al : List String) (f : Bool) (bp : Option String) (fd : Option (List Char))
    (hr tr : ExecOutcome)
    (hq : parseArgs aq = ⟨f, true, []⟩) (hl : parseArgs al = ⟨f, false, []⟩) :
    (∀ out, invoke aq bp fd hr tr = .ok out → out.printed = []) ∧
    Except.map InvokeOut.directives (invoke aq bp fd hr tr) =
      Except.map InvokeOut.directives (invoke al bp fd hr tr) := by
  unfold invoke
  rw [hq, hl]
  unfold invokeCore
  cases ho : invokeOutcome f bp fd hr tr with
  | error e => simp [ho, Except.map]
  | ok o =>
      constructor
      · intro out hout
        simp [ho, Except.map, con_print] at hout
        rw [← hout]
      · simp [ho, Except.map]

/-- C8 witness: a quiet and a loud run over the same failing rustup,
non-matching binary forced past the check: quiet prints nothing and
both runs issue the same (empty) directive list. -/
theorem invoke_quiet_suppresses_witness :
    parseArgs ["-f", "-q"] = ⟨true, true, []⟩ ∧
    parseArgs ["-f"] = ⟨true, false, []⟩ ∧
    (∀ out, invoke ["-f", "-q"] (some "b") (some "hello".toList) (.ran 1 "") (.ran 1 "")
      = .ok out → out.printed = []) ∧
    Except.map InvokeOut.directives
        (invoke ["-f", "-q"] (some "b") (some "hello".toList) (.ran 1 "") (.ran 1 "")) =
      Except.map InvokeOut.directives
        (invoke ["-f"] (some "b") (some "hello".toList) (.ran 1 "") (.ran 1 "")) := by
  have h := invoke_quiet_suppresses ["-f", "-q"] ["-f"] true (some "b")
    (some "hello".toList) (.ran 1 "") (.ran 1 "") (by decide) (by decide)
  exact ⟨by decide, by decide, h.1, h.2⟩

/-- C9: an unreadable binary file is fatal: the I/O error of the
whole-file read escapes the invocation, both from the type check (force
unset) and from tag extraction (forced, with both rustup queries
answering) — unlike every other failure path, which returns normally. -/
theorem invoke_unreadable_fatal
    (args : List String) (quiet : Bool) (p : String) (hr tr : ExecOutcome)
    (hargs : parseArgs args = ⟨false, quiet, []⟩) :
    invoke args (some p) none hr tr = .error PyErr.ioError ∧
    (∀ args2 quiet2 home tc hm tm,
      parseArgs args2 = ⟨true, quiet2, []⟩ →
      get_rustup_home hr = .ok (some home, hm) →
      get_active_rust_toolchain tr = .ok (some tc, tm) →
      invoke args2 (some p) none hr tr = .error PyErr.ioError) := by
  constructor
  · unfold invoke
    rw [hargs]
    simp [invokeCore, invokeOutcome, Except.map]
  · intro args2 quiet2 home tc hm tm h2 hh ht
    unfold invoke
    rw [h2]
    simp [invokeCore, invokeOutcome, invokeAfterCheck, hh, ht, Except.map]

/-- C9 witness: an unreadable file under both an unforced and a forced
invocation with healthy rustup. -/
theorem invoke_unreadable_fatal_witness :
    parseArgs [] = ⟨false, false, []⟩ ∧
    invoke [] (some "b") none (.ran 0 "x") (.ran 0 "y") = .error PyErr.ioError ∧
    invoke ["-f"] (some "b") none (.ran 0 "x") (.ran 0 "y") = .error PyErr.ioError := by
  have h := invoke_unreadable_fatal [] false "b" (.ran 0 "x") (.ran 0 "y") (by decide)
  exact ⟨by decide, h.1, h.2 ["-f"] false "x" "y" [] [] (by decide) (by decide) (by decide)⟩

/-- C10: when the external command exits 0 with empty or
whitespace-only stdout, `split()[0]` has no token to take and both
rustup locators raise an uncaught `IndexError` instead of returning. -/
theorem locators_empty_output_raise (out : String) (h : pyTokens out = []) :
    get_rustup_home (.ran 0 out) = .error PyErr.indexError ∧
    get_active_rust_toolchain (.ran 0 out) = .error PyErr.indexError := by
  constructor <;> simp [get_rustup_home, get_active_rust_toolchain, h]

/-- C10 witness: whitespace-only stdout. -/
theorem locators_empty_output_raise_witness :
    pyTokens " \n" = [] ∧
    get_rustup_home (.ran 0 " \n") = .error PyErr.indexError ∧
    get_active_rust_toolchain (.ran 0 " \n") = .error PyErr.indexError := by
  have h := locators_empty_output_raise " \n" (by decide)
  exact ⟨by decide, h.1, h.2⟩

example : is_rust_binary "xx/rustc/yy".toList = true := by decide
example : is_rust_binary "hello".toList = false := by decide
example : get_rustlib_path "ab/rustc/1.70.0/xx".toList = some "/rustc/1.70.0".toList := by decide
example : pyTokens "/home/user/.rustup\n" = ["/home/user/.rustup"] := by decide
example : pyStripStr "a b\n" = "a b" := by decide
example : osPathJoin "/opt/rust" ["toolchains", "stable-x86_64", "lib", "rustlib", "src", "rust"]
    = "/opt/rust/toolchains/stable-x86_64/lib/rustlib/src/rust" := by decide
example :
    invoke [] (some "b") (some "/rustc/1.70.0/x".toList)
      (.ran 0 "/opt/rust\n") (.ran 0 "stable-x86_64\n")
    = .ok ⟨[], [rustupHomeArgv, rustupActiveArgv], 2,
        [("/rustc/1.70.0", "/opt/rust/toolchains/stable-x86_64/lib/rustlib/src/rust")]⟩ := by
  decide
example : invoke ["-x"] (some "b") (some []) .notFound .notFound
    = .error PyErr.attributeError := by decide
